import Mathlib

/-!
Shallow embedding of `src/pennylane_alice_bob/device.py`: the
`AliceBobQubitDevice` adapter class, whose two pieces of logic are the
static backend resolver `configured_backend` and the constructor hook
`__new__`.

The two provider libraries (`AliceBobLocalProvider`,
`AliceBobRemoteProvider`) and the host framework factory
(`qml.device`) are external collaborators: they are modelled abstractly
as an environment `ProviderEnv` holding the local catalog (the list of
`element.name` strings produced by `backends()`) together with opaque
native-configuration constructors, and backend handles are records that
tag which provider produced them and which arguments were forwarded.
Python values that may be `None` are `Option`; a raised exception is an
`Except.error`; the console prints and the warnings emitted on the way
are returned explicitly as lists of strings.
-/

set_option autoImplicit false

namespace PennylaneAliceBob

/-- Which provider constructed a backend handle: the local provider
(`AliceBobLocalProvider`) or the remote one (`AliceBobRemoteProvider`). -/
inductive ProviderKind where
  | localProvider
  | remoteProvider
deriving DecidableEq, Repr

/-- The ad hoc `Stub` class built inside `__new__`: its only field is
`n_qubits`, set to the requested wire count. -/
structure Stub where
  n_qubits : Nat
deriving DecidableEq, Repr

/-- The value of a backend handle's `configuration` attribute: either the
native accessor the provider library installed (opaque, of type `N`), or
the overlay `conf` installed by `__new__`, which returns a `Stub`. -/
inductive Conf (N : Type) where
  | native : N → Conf N
  | overlay : Stub → Conf N
deriving DecidableEq, Repr

/-- A backend handle as this adapter observes it: which provider built it,
the credential handed to that provider (empty for the local one), the
backend name requested, the forwarded keyword configuration (opaque, of
type `C`), and the current `configuration` attribute. -/
structure Backend (N C : Type) where
  kind : ProviderKind
  apiKey : String
  backendName : String
  kwargs : C
  configuration : Conf N
deriving DecidableEq, Repr

/-- The external provider environment: the local catalog (the `name`
fields of `AliceBobLocalProvider().backends()`, in order) and the opaque
native configurations each provider installs on the handles it returns. -/
structure ProviderEnv (N C : Type) where
  catalog : List String
  localNative : String → C → N
  remoteNative : String → String → C → N

variable {N C : Type}

/-- `AliceBobLocalProvider().get_backend(name, **kwargs)`: a local handle
carrying the requested name and forwarded keyword configuration. -/
def ProviderEnv.localGet (env : ProviderEnv N C) (name : String) (kwargs : C) :
    Backend N C :=
  ⟨.localProvider, "", name, kwargs, .native (env.localNative name kwargs)⟩

/-- `AliceBobRemoteProvider(api_key).get_backend(name, **kwargs)`: a remote
handle carrying the credential, the requested name and the forwarded
keyword configuration. -/
def ProviderEnv.remoteGet (env : ProviderEnv N C) (apiKey name : String) (kwargs : C) :
    Backend N C :=
  ⟨.remoteProvider, apiKey, name, kwargs, .native (env.remoteNative apiKey name kwargs)⟩

/-- Python `str.strip()` on the underlying character list: drop
whitespace from the front, then from the back. -/
def stripChars (s : List Char) : List Char :=
  ((s.dropWhile Char.isWhitespace).reverse.dropWhile Char.isWhitespace).reverse

/-- Python `str.strip()`: the string with leading and trailing
whitespace removed. -/
def pyStrip (s : String) : String :=
  ⟨stripChars s.data⟩

/-- The console message printed on a successful catalog match. -/
def printMsg (backend : String) : String :=
  "Using alice & bob " ++ backend ++ " backend..."

/-- The warning emitted when no catalog entry matches the requested name. -/
def warnMsg (backend : String) : String :=
  "Backend \x27" ++ backend ++ "\x27 not found. Using default local backend."

/-- The loop of `configured_backend` over the remaining catalog entries:
on the first entry whose stripped name equals the stripped request, print
and return the remote handle when `len(api_key) > 1`, else the local one;
when the catalog is exhausted, warn and return the default local backend.
The result triple is (prints, warnings, returned value), the value an
`Option` because a Python function may return `None`. -/
def resolveFrom (env : ProviderEnv N C) (entries : List String)
    (backend api_key : String) (kwargs : C) :
    List String × List String × Option (Backend N C) :=
  match entries with
  | [] => ([], [warnMsg backend], some (env.localGet "default" kwargs))
  | el :: rest =>
    if pyStrip backend = pyStrip el then
      ([printMsg backend], [],
        some (if api_key.length > 1 then env.remoteGet api_key backend kwargs
              else env.localGet backend kwargs))
    else
      resolveFrom env rest backend api_key kwargs

/-- `AliceBobQubitDevice.configured_backend(backend, api_key='', **kwargs)`:
scan the local catalog with `resolveFrom`. -/
def configured_backend (env : ProviderEnv N C) (backend : String)
    (api_key : String := "") (kwargs : C) :
    List String × List String × Option (Backend N C) :=
  resolveFrom env env.catalog backend api_key kwargs

/-- The exceptions `__new__` can raise: the `AttributeError` Python
produces when an attribute is set on `None`, and the `DeviceError` of the
defensive branch. -/
inductive PyError where
  | attributeError : String → PyError
  | deviceError : String → PyError
deriving DecidableEq, Repr

/-- Message of the `AttributeError` raised by `provider.configuration = conf`
when `provider` is `None`. -/
def noneTypeMsg : String :=
  "NoneType object has no attribute configuration"

/-- Message of the `DeviceError` of the defensive branch: it joins the
catalog names with single spaces. -/
def deviceErrMsg (env : ProviderEnv N C) : String :=
  "Backend error, please choose one of the following: " ++
    String.intercalate " " env.catalog

/-- The object returned by `qml.device('qiskit.remote', wires=wires,
backend=provider, shots=shots)`: a record of the factory name and the
three arguments passed to it. -/
structure PLDevice (N C : Type) where
  deviceKind : String
  wires : Nat
  backend : Backend N C
  shots : Nat
deriving DecidableEq, Repr

/-- Lines 70 to 82 of `__new__`, as a function of the resolver result:
set `provider.configuration = conf` (an `AttributeError` when the
resolver returned `None`), then run the `if provider is None` check on
the very value just mutated, then delegate to the host factory. -/
def new_with_provider (env : ProviderEnv N C) (wires shots : Nat)
    (providerOpt : Option (Backend N C)) : Except PyError (PLDevice N C) :=
  match providerOpt with
  | none => .error (.attributeError noneTypeMsg)
  | some provider =>
    let provider := { provider with configuration := .overlay ⟨wires⟩ }
    if (some provider).isNone then
      .error (.deviceError (deviceErrMsg env))
    else
      .ok ⟨"qiskit.remote", wires, provider, shots⟩

/-- The `name` property of `AliceBobQubitDevice`. -/
def AliceBobQubitDevice.name : String := "alicebob.qubit"

/-- `AliceBobQubitDevice.__new__`: resolve the backend with
`configured_backend`, overlay the wire count and delegate to
`qml.device`.  `seed` and ` max_workers` are accepted exactly as in the
Python signature and, as there, never read.  The result triple is
(prints, warnings, outcome). -/
def AliceBobQubitDevice.new (env : ProviderEnv N C)
    (wires : Nat := 1) (shots : Nat := 1024) (seed : String := "global")
    ( max_workers : Option Nat := none)
    (alice_backend : String := "EMU:6Q:PHYSICAL_CATS")
    (api_token : String := "") (kwargs : C) :
    List String × List String × Except PyError (PLDevice N C) :=
  let r := configured_backend env alice_backend api_token kwargs
  (r.1, r.2.1, new_with_provider env wires shots r.2.2)

/-- A small concrete provider environment used to evaluate the
definitions at concrete inputs. -/
def envW : ProviderEnv Nat Nat :=
  ⟨["EMU:6Q:PHYSICAL_CATS", "EMU:40Q:LOGICAL_TARGET"],
   fun _ _ => 0, fun _ _ _ => 1⟩

/-- The concrete device produced by the example scenario of the spec
(wires 3, shots 500, local physical-cats backend, kwargs 7). -/
def devW : PLDevice Nat Nat :=
  ⟨"qiskit.remote", 3,
   ⟨.localProvider, "", "EMU:6Q:PHYSICAL_CATS", 7, .overlay ⟨3⟩⟩, 500⟩

/-- If some entry of the remaining catalog matches the stripped request,
the scan stops at the first such entry: one print, no warning, and the
remote handle when the credential is longer than one character, else the
local handle. -/
theorem resolveFrom_match (env : ProviderEnv N C) (entries : List String)
    (backend api_key : String) (kwargs : C)
    (h : ∃ el ∈ entries, pyStrip backend = pyStrip el) :
    resolveFrom env entries backend api_key kwargs =
      ([printMsg backend], [],
        some (if api_key.length > 1 then env.remoteGet api_key backend kwargs
              else env.localGet backend kwargs)) := by
  induction entries with
  | nil => simp at h
  | cons el rest ih =>
    by_cases hb : pyStrip backend = pyStrip el
    · simp [resolveFrom, hb]
    · rcases h with ⟨e, he, heq⟩
      rcases List.mem_cons.mp he with rfl | hmem
      · exact absurd heq hb
      · simpa [resolveFrom, hb] using ih ⟨e, hmem, heq⟩

/-- If no entry of the remaining catalog matches the stripped request,
the scan falls through: no print, exactly the one fallback warning, and
the default local backend with the keyword configuration forwarded. -/
theorem resolveFrom_nomatch (env : ProviderEnv N C) (entries : List String)
    (backend api_key : String) (kwargs : C)
    (h : ∀ el ∈ entries, pyStrip backend ≠ pyStrip el) :
    resolveFrom env entries backend api_key kwargs =
      ([], [warnMsg backend], some (env.localGet "default" kwargs)) := by
  induction entries with
  | nil => simp [resolveFrom]
  | cons el rest ih =>
    have hb : pyStrip backend ≠ pyStrip el := h el (List.mem_cons_self el rest)
    simpa [resolveFrom, hb] using ih fun e he => h e (List.mem_cons_of_mem el he)

/-- Every return path of the catalog scan returns a backend handle, never
`None`. -/
theorem resolveFrom_isSome (env : ProviderEnv N C) (entries : List String)
    (backend api_key : String) (kwargs : C) :
    (resolveFrom env entries backend api_key kwargs).2.2.isSome = true := by
  induction entries with
  | nil => simp [resolveFrom]
  | cons el rest ih =>
    by_cases hb : pyStrip backend = pyStrip el
    · simp [resolveFrom, hb]
    · simpa [resolveFrom, hb] using ih

/-- On a non-null resolver result, `__new__` overwrites the handle's
`configuration` attribute with the overlay and hands the handle,
otherwise unchanged, to the host factory. -/
theorem new_with_provider_some (env : ProviderEnv N C) (wires shots : Nat)
    (b : Backend N C) :
    new_with_provider env wires shots (some b) =
      .ok ⟨"qiskit.remote", wires,
        ⟨b.kind, b.apiKey, b.backendName, b.kwargs, .overlay ⟨wires⟩⟩, shots⟩ :=
  rfl

/-- Any device `__new__` successfully returns carries the overlay
configuration reporting the requested wire count. -/
theorem new_with_provider_ok_conf (env : ProviderEnv N C) (wires shots : Nat)
    (providerOpt : Option (Backend N C)) (d : PLDevice N C)
    (h : new_with_provider env wires shots providerOpt = .ok d) :
    d.backend.configuration = .overlay ⟨wires⟩ := by
  cases providerOpt with
  | none => simp [new_with_provider] at h
  | some b =>
    rw [new_with_provider_some] at h
    cases h
    rfl

/-- Any device `__new__` successfully returns was built by the
`qiskit.remote` factory. -/
theorem new_with_provider_ok_kind (env : ProviderEnv N C) (wires shots : Nat)
    (providerOpt : Option (Backend N C)) (d : PLDevice N C)
    (h : new_with_provider env wires shots providerOpt = .ok d) :
    d.deviceKind = "qiskit.remote" := by
  cases providerOpt with
  | none => simp [new_with_provider] at h
  | some b =>
    rw [new_with_provider_some] at h
    cases h
    rfl

/-- The `DeviceError` branch of `__new__` is never taken: its guard
inspects the very value whose attribute was just set, so it can only run
after that value proved non-null. -/
theorem new_with_provider_ne_deviceError (env : ProviderEnv N C)
    (wires shots : Nat) (providerOpt : Option (Backend N C)) (msg : String) :
    new_with_provider env wires shots providerOpt ≠
      .error (.deviceError msg) := by
  cases providerOpt with
  | none => simp [new_with_provider]
  | some b => rw [new_with_provider_some]; simp

/-- Claim C1: for every requested backend name whose stripped form equals
the stripped form of some local catalog entry, `configured_backend`
returns the remote provider backend for that name when the credential has
length greater than one, and the local provider backend otherwise, the
keyword configuration passed through in both cases. -/
theorem C1_matched_backend_resolution (env : ProviderEnv N C)
    (backend api_key : String) (kwargs : C)
    (h : ∃ el ∈ env.catalog, pyStrip backend = pyStrip el) :
    configured_backend env backend api_key kwargs =
      ([printMsg backend], [],
        some (if api_key.length > 1 then env.remoteGet api_key backend kwargs
              else env.localGet backend kwargs)) :=
  resolveFrom_match env env.catalog backend api_key kwargs h

/-- Witness for C1 at a concrete catalog, a matching name and a
credential of length greater than one. -/
theorem C1_matched_backend_resolution_witness :
    (∃ el ∈ envW.catalog, pyStrip "EMU:40Q:LOGICAL_TARGET" = pyStrip el) ∧
    configured_backend envW "EMU:40Q:LOGICAL_TARGET" "secret-key" 7 =
      ([printMsg "EMU:40Q:LOGICAL_TARGET"], [],
        some (if "secret-key".length > 1 then
                envW.remoteGet "secret-key" "EMU:40Q:LOGICAL_TARGET" 7
              else envW.localGet "EMU:40Q:LOGICAL_TARGET" 7)) :=
  ⟨⟨"EMU:40Q:LOGICAL_TARGET", by simp [envW], rfl⟩,
   C1_matched_backend_resolution envW "EMU:40Q:LOGICAL_TARGET" "secret-key" 7
     ⟨"EMU:40Q:LOGICAL_TARGET", by simp [envW], rfl⟩⟩

/-- Claim C2: every device that construction successfully returns, on any
resolution path, carries the overlay configuration whose `n_qubits` field
equals exactly the requested wire count. -/
theorem C2_overlay_reports_wires (env : ProviderEnv N C)
    (wires shots : Nat) (seed : String) ( max_workers : Option Nat)
    (alice_backend api_token : String) (kwargs : C) (d : PLDevice N C)
    (h : (AliceBobQubitDevice.new env wires shots seed
            max_workers alice_backend api_token kwargs).2.2 = .ok d) :
    d.backend.configuration = .overlay ⟨wires⟩ :=
  new_with_provider_ok_conf env wires shots
    (configured_backend env alice_backend api_token kwargs).2.2 d h

/-- Witness for C2 at a concrete construction call with three wires. -/
theorem C2_overlay_reports_wires_witness :
    ((AliceBobQubitDevice.new envW 3 500 "global" none
        "EMU:6Q:PHYSICAL_CATS" "" 7).2.2 = .ok devW) ∧
    devW.backend.configuration = .overlay ⟨3⟩ :=
  ⟨rfl,
   C2_overlay_reports_wires envW 3 500 "global" none
     "EMU:6Q:PHYSICAL_CATS" "" 7 devW rfl⟩

/-- Claim C3: for every requested name absent from the catalog (no
stripped match), resolution emits exactly one warning, whose message
contains the invalid backend name, and returns the local default backend
with the keyword configuration forwarded, for every credential value. -/
theorem C3_unknown_backend_fallback (env : ProviderEnv N C)
    (backend api_key : String) (kwargs : C)
    (h : ∀ el ∈ env.catalog, pyStrip backend ≠ pyStrip el) :
    configured_backend env backend api_key kwargs =
      ([], [warnMsg backend], some (env.localGet "default" kwargs)) ∧
    ∃ pre post, warnMsg backend = pre ++ backend ++ post :=
  ⟨resolveFrom_nomatch env env.catalog backend api_key kwargs h,
   "Backend \x27", "\x27 not found. Using default local backend.", rfl⟩

/-- Witness for C3 at a concrete catalog, an unknown name and a non-empty
credential. -/
theorem C3_unknown_backend_fallback_witness :
    (∀ el ∈ envW.catalog, pyStrip "NONEXISTENT_BACKEND" ≠ pyStrip el) ∧
    (configured_backend envW "NONEXISTENT_BACKEND" "secret-key" 7 =
      ([], [warnMsg "NONEXISTENT_BACKEND"], some (envW.localGet "default" 7)) ∧
     ∃ pre post, warnMsg "NONEXISTENT_BACKEND" =
       pre ++ "NONEXISTENT_BACKEND" ++ post) :=
  ⟨by decide,
   C3_unknown_backend_fallback envW "NONEXISTENT_BACKEND" "secret-key" 7
     (by decide)⟩

/-- Claim C4 evaluation: were the resolver to yield `None`, `__new__`
would fail at `provider.configuration = conf` with an `AttributeError`,
before its `provider is None` check; the `DeviceError` branch is taken on
no input at all, so the configuration error promised by the claim is
never raised. -/
theorem C4_null_resolution_attribute_error :
    new_with_provider envW 1 1024 (none : Option (Backend Nat Nat)) =
      .error (.attributeError noneTypeMsg) ∧
    ∀ providerOpt : Option (Backend Nat Nat), ∀ msg : String,
      new_with_provider envW 1 1024 providerOpt ≠ .error (.deviceError msg) :=
  ⟨rfl, fun providerOpt msg =>
    new_with_provider_ne_deviceError envW 1 1024 providerOpt msg⟩

/-- Claim C5: the resolver returns a backend handle on every return path,
for every name, credential and keyword configuration; consequently device
construction always reaches the host factory and succeeds, so the hard
failure branch is unreachable. -/
theorem C5_resolver_total_construction_succeeds (env : ProviderEnv N C)
    (wires shots : Nat) (seed : String) ( max_workers : Option Nat)
    (backend api_key : String) (kwargs : C) :
    (configured_backend env backend api_key kwargs).2.2.isSome = true ∧
    ∃ d, (AliceBobQubitDevice.new env wires shots seed
            max_workers backend api_key kwargs).2.2 = .ok d := by
  have hs := resolveFrom_isSome env env.catalog backend api_key kwargs
  refine ⟨hs, ?_⟩
  rcases Option.isSome_iff_exists.mp hs with ⟨b, hb⟩
  refine ⟨⟨"qiskit.remote", wires,
    ⟨b.kind, b.apiKey, b.backendName, b.kwargs, .overlay ⟨wires⟩⟩, shots⟩, ?_⟩
  show new_with_provider env wires shots
    (resolveFrom env env.catalog backend api_key kwargs).2.2 = _
  rw [hb, new_with_provider_some]

/-- Claim C6: the example scenario — construction with wires 3, shots 500,
backend name EMU:6Q:PHYSICAL_CATS present in the catalog and an empty
token returns exactly the object of the `qiskit.remote` factory applied
to the wire count, the overlaid local handle for that name, and the shot
count: the local backend is selected, the overlay reports three qubits,
and the shot count is 500. -/
theorem C6_example_scenario (env : ProviderEnv N C) (seed : String)
    ( max_workers : Option Nat) (kwargs : C)
    (h : ∃ el ∈ env.catalog, pyStrip "EMU:6Q:PHYSICAL_CATS" = pyStrip el) :
    AliceBobQubitDevice.new env 3 500 seed max_workers
        "EMU:6Q:PHYSICAL_CATS" "" kwargs =
      ([printMsg "EMU:6Q:PHYSICAL_CATS"], [],
        .ok ⟨"qiskit.remote", 3,
          ⟨.localProvider, "", "EMU:6Q:PHYSICAL_CATS", kwargs, .overlay ⟨3⟩⟩,
          500⟩) := by
  have hres := resolveFrom_match env env.catalog "EMU:6Q:PHYSICAL_CATS" "" kwargs h
  show (let r := configured_backend env "EMU:6Q:PHYSICAL_CATS" "" kwargs
        (r.1, r.2.1, new_with_provider env 3 500 r.2.2)) = _
  rw [show configured_backend env "EMU:6Q:PHYSICAL_CATS" "" kwargs =
        resolveFrom env env.catalog "EMU:6Q:PHYSICAL_CATS" "" kwargs from rfl, hres]
  rfl

/-- Witness for C6 at the concrete catalog containing the physical-cats
emulator name. -/
theorem C6_example_scenario_witness :
    (∃ el ∈ envW.catalog, pyStrip "EMU:6Q:PHYSICAL_CATS" = pyStrip el) ∧
    AliceBobQubitDevice.new envW 3 500 "global" none
        "EMU:6Q:PHYSICAL_CATS" "" 7 =
      ([printMsg "EMU:6Q:PHYSICAL_CATS"], [], .ok devW) :=
  ⟨⟨"EMU:6Q:PHYSICAL_CATS", by simp [envW], rfl⟩,
   C6_example_scenario envW "global" none 7
     ⟨"EMU:6Q:PHYSICAL_CATS", by simp [envW], rfl⟩⟩

/-- Claim C7: two construction calls differing only in `max_workers`
produce identical prints, warnings and result: the parameter is accepted
and never read. -/
theorem C7_max_workers_inert (env : ProviderEnv N C) (wires shots : Nat)
    (seed : String) (mw1 mw2 : Option Nat)
    (alice_backend api_token : String) (kwargs : C) :
    AliceBobQubitDevice.new env wires shots seed mw1
        alice_backend api_token kwargs =
      AliceBobQubitDevice.new env wires shots seed mw2
        alice_backend api_token kwargs := rfl

/-- Claim C8: two construction calls differing only in `seed` produce
identical prints, warnings and result: the parameter, default "global"
included, is accepted and never read. -/
theorem C8_seed_inert (env : ProviderEnv N C) (wires shots : Nat)
    (seed1 seed2 : String) ( max_workers : Option Nat)
    (alice_backend api_token : String) (kwargs : C) :
    AliceBobQubitDevice.new env wires shots seed1 max_workers
        alice_backend api_token kwargs =
      AliceBobQubitDevice.new env wires shots seed2 max_workers
        alice_backend api_token kwargs := rfl

/-- Claim C9: on a resolved handle, construction unconditionally replaces
the `configuration` attribute with the overlay reporting the wire count —
whatever accessor the handle carried before — and leaves every other
field of the handle unchanged. -/
theorem C9_overlay_replaces_configuration_frame (env : ProviderEnv N C)
    (wires shots : Nat) (b : Backend N C) :
    new_with_provider env wires shots (some b) =
      .ok ⟨"qiskit.remote", wires,
        ⟨b.kind, b.apiKey, b.backendName, b.kwargs, .overlay ⟨wires⟩⟩,
        shots⟩ := rfl

/-- Claim C10: every object construction hands back was produced by the
foreign `qiskit.remote` factory, so the class name property
`alicebob.qubit` is never observable on a returned object. -/
theorem C10_returns_foreign_device (env : ProviderEnv N C)
    (wires shots : Nat) (seed : String) ( max_workers : Option Nat)
    (alice_backend api_token : String) (kwargs : C) (d : PLDevice N C)
    (h : (AliceBobQubitDevice.new env wires shots seed
            max_workers alice_backend api_token kwargs).2.2 = .ok d) :
    d.deviceKind = "qiskit.remote" ∧ d.deviceKind ≠ AliceBobQubitDevice.name := by
  have hk := new_with_provider_ok_kind env wires shots
    (configured_backend env alice_backend api_token kwargs).2.2 d h
  exact ⟨hk, by rw [hk]; decide⟩

/-- Witness for C10 at a concrete construction call. -/
theorem C10_returns_foreign_device_witness :
    ((AliceBobQubitDevice.new envW 3 500 "global" none
        "EMU:6Q:PHYSICAL_CATS" "" 7).2.2 = .ok devW) ∧
    (devW.deviceKind = "qiskit.remote" ∧
     devW.deviceKind ≠ AliceBobQubitDevice.name) :=
  ⟨rfl,
   C10_returns_foreign_device envW 3 500 "global" none
     "EMU:6Q:PHYSICAL_CATS" "" 7 devW rfl⟩

end PennylaneAliceBob
